import Mathlib

/-!
# Verification of `boost/process/system.hpp`

A shallow embedding of the blocking process-execution facade in
`src/include/boost/process/system.hpp`.  The facade (`system`) classifies the
caller's variadic option list by two type-trait predicates
(`needs_io_service`, `has_io_service`) and dispatches to one of four
`system_impl` overloads, each of which creates a `child`, waits for it by a
distinct protocol, and returns its exit code (or `-1` when creation failed).

External collaborators (`boost::asio::io_service`, `boost::process::child`)
are not part of the repository; they are embedded from the boundary contract
the spec states for them (non-blocking `poll` drains ready work, `run` blocks
until no work remains, `child` exposes `valid`, `wait`, `exit_code`, and an
`on_exit` completion hook registered at creation).
-/

namespace BoostProcess

/-- One launch option of the heterogeneous variadic option list passed to
`system`.  The facade never interprets options beyond classifying them;
the constructors cover the option categories the spec enumerates. -/
inductive POption where
  | target (exe : String) (args : List String)
  | env (key : String) (val : String)
  | ioBinding (fd : Nat)
  | schedulerRef
  | completionHandler
  | suspensionToken
deriving DecidableEq

/-- Whether an option is an asynchronous capability (a completion handler,
such as `on_exit`, or a coroutine-suspension token such as a
`yield_context`), i.e. one that requires a live scheduler. -/
def isAsyncOption : POption → Bool
  | POption.completionHandler => true
  | POption.suspensionToken => true
  | _ => false

/-- Whether an option is an explicit scheduler (`io_service`) reference. -/
def isSchedulerRef : POption → Bool
  | POption.schedulerRef => true
  | _ => false

/-- Modelled from the spec: the `boost::process::detail::needs_io_service`
type trait (declared in a detail header that is not part of this fragment).
Per §4.1 it is true iff the option set contains any option whose semantics
require posting work to, or suspending within, a scheduler. -/
def needs_io_service (opts : List POption) : Bool :=
  opts.any isAsyncOption

/-- Modelled from the spec: the `boost::process::detail::has_io_service`
type trait (declared in a detail header that is not part of this fragment).
Per §4.1 it is true iff the option set contains an explicit scheduler
(`io_service`) reference. -/
def has_io_service (opts : List POption) : Bool :=
  opts.any isSchedulerRef

/-- The behaviour of the spawned child process, abstracting
`boost::process::child`: whether creation succeeded (`valid`) and the exit
code the process reports once it has terminated (`exit_code`). -/
structure ChildSpec where
  valid : Bool
  exit_code : Int
deriving DecidableEq

/-- The four waiting strategies of the §4.2 decision table, one per
`system_impl` overload. -/
inductive StrategyName where
  | driveSupplied
  | ownAndRun
  | blockingWithSupplied
  | blockingPlain
deriving DecidableEq

/-- The compile-time `std::true_type`/`std::false_type` dispatch of
`system` over the two trait values, reified as a function on the pair
`(needs_io_service, has_io_service)`. -/
def selectStrategy : Bool → Bool → StrategyName
  | true, true => StrategyName.driveSupplied
  | true, false => StrategyName.ownAndRun
  | false, true => StrategyName.blockingWithSupplied
  | false, false => StrategyName.blockingPlain

/-- The observable outcome of one `system` call: the returned exit status
together with an instrumentation of the externally visible effects the spec
talks about (how often the supplied scheduler was polled, how often a
blocking `run`/`wait` was made, how often the completion hook ran, whether
the child was created with default signal disposition, and the lifecycle of
an internally owned scheduler). -/
structure SysResult where
  ret : Int
  strategy : StrategyName
  polls : Nat
  runs : Nat
  waits : Nat
  hookRuns : Nat
  sigDfl : Bool
  ownedCreated : Bool
  ownedDestroyed : Bool
  ownedPendingAtEnd : Nat
deriving DecidableEq

/-- `system_impl(false_type, true_type)`: blocking wait with a supplied
scheduler present.  `child c(args...); if (!c.valid()) return -1;
c.wait(); return c.exit_code();` — the supplied scheduler is never polled
or run. -/
def system_impl_ft (c : ChildSpec) : SysResult :=
  if c.valid = false then
    { ret := -1, strategy := StrategyName.blockingWithSupplied,
      polls := 0, runs := 0, waits := 0, hookRuns := 0, sigDfl := false,
      ownedCreated := false, ownedDestroyed := false, ownedPendingAtEnd := 0 }
  else
    { ret := c.exit_code, strategy := StrategyName.blockingWithSupplied,
      polls := 0, runs := 0, waits := 1, hookRuns := 0, sigDfl := false,
      ownedCreated := false, ownedDestroyed := false, ownedPendingAtEnd := 0 }

/-- `system_impl(false_type, false_type)`: plain blocking wait.  The child
is created with `posix::sig.dfl()` (default signal disposition); then
`if (!c.valid()) return -1; c.wait(); return c.exit_code();`. -/
def system_impl_ff (c : ChildSpec) : SysResult :=
  if c.valid = false then
    { ret := -1, strategy := StrategyName.blockingPlain,
      polls := 0, runs := 0, waits := 0, hookRuns := 0, sigDfl := true,
      ownedCreated := false, ownedDestroyed := false, ownedPendingAtEnd := 0 }
  else
    { ret := c.exit_code, strategy := StrategyName.blockingPlain,
      polls := 0, runs := 0, waits := 1, hookRuns := 0, sigDfl := true,
      ownedCreated := false, ownedDestroyed := false, ownedPendingAtEnd := 0 }

/-- A work item posted to the supplied scheduler.  The only task this core
posts is the store `exited.store(true)` that the completion hook posts via
`ios.post`. -/
inductive Task where
  | setFlag
deriving DecidableEq

/-- The state of the drive-supplied waiting loop: the `exited` atomic flag,
the supplied scheduler's queue of posted tasks, and counters for completion
hook executions and `poll` calls. -/
structure DriveState where
  exited : Bool
  pending : List Task
  hookRuns : Nat
  polls : Nat
deriving DecidableEq

/-- The initial state of the drive-supplied loop: flag clear, no posted
work, nothing has run. -/
def initDrive : DriveState :=
  { exited := false, pending := [], hookRuns := 0, polls := 0 }

/-- Executing one posted task: `setFlag` performs `exited.store(true)`. -/
def runTask : Task → DriveState → DriveState
  | Task.setFlag, s => { s with exited := true }

/-- Draining a list of posted tasks in order. -/
def runPending : List Task → DriveState → DriveState
  | [], s => s
  | t :: ts, s => runPending ts (runTask t s)

/-- The completion hook registered via `on_exit` in
`system_impl(true_type, true_type)`:
`[&](int exit_code, const std::error_code&) { ios.post([&]{exited.store(true);}); }`.
It receives the child's exit code and an error code, ignores both, and
posts the flag-setting store to the supplied scheduler. -/
def runHook (_hookArgs : Int × Int) (s : DriveState) : DriveState :=
  { s with hookRuns := s.hookRuns + 1, pending := s.pending ++ [Task.setFlag] }

/-- Modelled from the spec: one `ios.poll()` call on the supplied scheduler
(`drainOnce` in the §6 collaborator contract) — it runs, without blocking,
all work that is ready.  The environment parameter `hookAt` is the index of
the poll call during which the scheduler delivers the child-exit
notification to the completion hook (`0` means the hook never fires); any
task the hook posts is ready and is drained within the same call. -/
def poll (hookAt : Nat) (hookArgs : Int × Int) (s : DriveState) : DriveState :=
  let s1 := { s with polls := s.polls + 1 }
  let s2 := if s1.polls = hookAt then runHook hookArgs s1 else s1
  runPending s2.pending { s2 with pending := [] }

/-- The waiting loop of `system_impl(true_type, true_type)`:
`while (!exited.load()) ios.poll();` — fuel-indexed; `none` means the fuel
ran out before the flag was observed (the call has not returned yet). -/
def driveLoop (hookAt : Nat) (hookArgs : Int × Int) :
    Nat → DriveState → Option DriveState
  | 0, s => if s.exited then some s else none
  | fuel + 1, s =>
      if s.exited then some s
      else driveLoop hookAt hookArgs fuel (poll hookAt hookArgs s)

/-- `system_impl(true_type, true_type)`: drive the caller-supplied
scheduler.  The child is created with the `on_exit` completion hook; if
creation failed (`!c.valid()`) return `-1` before any poll; otherwise poll
the supplied scheduler until the `exited` flag is set and return
`c.exit_code()`.  `none` means the loop has not terminated within `fuel`
polls. -/
def system_impl_tt (c : ChildSpec) (hookAt : Nat) (hookArgs : Int × Int)
    (fuel : Nat) : Option SysResult :=
  if c.valid = false then
    some { ret := -1, strategy := StrategyName.driveSupplied,
           polls := 0, runs := 0, waits := 0, hookRuns := 0, sigDfl := false,
           ownedCreated := false, ownedDestroyed := false, ownedPendingAtEnd := 0 }
  else
    match driveLoop hookAt hookArgs fuel initDrive with
    | none => none
    | some s =>
        some { ret := c.exit_code, strategy := StrategyName.driveSupplied,
               polls := s.polls, runs := 0, waits := 0, hookRuns := s.hookRuns,
               sigDfl := false, ownedCreated := false, ownedDestroyed := false,
               ownedPendingAtEnd := 0 }

/-- Modelled from the spec: the scheduler instance (`IoService ios;`) that
`system_impl(true_type, false_type)` creates and owns for the duration of
the call — a queue of pending work and a destruction flag (§6: `runToCompletion`
blocks until no work remains; default-constructible when owned internally). -/
structure OwnedScheduler where
  pending : Nat
  destroyed : Bool
deriving DecidableEq

/-- A freshly default-constructed owned scheduler: no pending work. -/
def OwnedScheduler.new : OwnedScheduler :=
  { pending := 0, destroyed := false }

/-- `ios.run()` on the owned scheduler: blocks until no work remains. -/
def OwnedScheduler.run (s : OwnedScheduler) : OwnedScheduler :=
  { s with pending := 0 }

/-- Scope exit of the owned scheduler (its destructor, run on every exit
path of `system_impl(true_type, false_type)`). -/
def OwnedScheduler.destroy (s : OwnedScheduler) : OwnedScheduler :=
  { s with destroyed := true }

/-- `system_impl(true_type, false_type)`: own and run a scheduler.
`IoService ios; child c(ios, args...); if (!c.valid()) return -1;
ios.run(); return c.exit_code();` — the scheduler is a local, destroyed on
every exit path.  `wired` is the amount of asynchronous work the child's
creation wires onto the owned scheduler when creation succeeds. -/
def system_impl_tf (c : ChildSpec) (wired : Nat) : SysResult :=
  let ios0 := OwnedScheduler.new
  let ios1 := if c.valid then { ios0 with pending := ios0.pending + wired } else ios0
  if c.valid = false then
    let iosEnd := OwnedScheduler.destroy ios1
    { ret := -1, strategy := StrategyName.ownAndRun,
      polls := 0, runs := 0, waits := 0, hookRuns := 0, sigDfl := false,
      ownedCreated := true, ownedDestroyed := iosEnd.destroyed,
      ownedPendingAtEnd := iosEnd.pending }
  else
    let ios2 := OwnedScheduler.run ios1
    let iosEnd := OwnedScheduler.destroy ios2
    { ret := c.exit_code, strategy := StrategyName.ownAndRun,
      polls := 0, runs := 1, waits := 0, hookRuns := 0, sigDfl := false,
      ownedCreated := true, ownedDestroyed := iosEnd.destroyed,
      ownedPendingAtEnd := iosEnd.pending }

/-- The environment parameters standing for the behaviour of the external
collaborators during one call: when the supplied scheduler delivers the
exit notification (`hookAt`), the `(exit_code, error_code)` pair the
completion hook receives (`hookArgs`), the asynchronous work the child
wires onto an internally owned scheduler (`wired`), and the poll-loop fuel
(`fuel`). -/
structure Env where
  hookAt : Nat
  hookArgs : Int × Int
  wired : Nat
  fuel : Nat

/-- `boost::process::system`: computes the two trait values from the option
list and dispatches to the matching `system_impl` overload.  `none` means
the call has not returned (drive-supplied loop still polling). -/
def system (opts : List POption) (c : ChildSpec) (e : Env) : Option SysResult :=
  match needs_io_service opts, has_io_service opts with
  | true, true => system_impl_tt c e.hookAt e.hookArgs e.fuel
  | true, false => some (system_impl_tf c e.wired)
  | false, true => some (system_impl_ft c)
  | false, false => some (system_impl_ff c)

/-! ## Helper lemmas -/

theorem any_perm {α : Type} (p : α → Bool) {l₁ l₂ : List α} (h : l₁.Perm l₂) :
    l₁.any p = l₂.any p := by
  induction h with
  | nil => rfl
  | cons x _ ih => simp [List.any_cons, ih]
  | swap x y l => simp [List.any_cons, Bool.or_left_comm]
  | trans _ _ ih₁ ih₂ => rw [ih₁, ih₂]

theorem isEmpty_append_singleton {α : Type} (l : List α) (x : α) :
    (l ++ [x]).isEmpty = false := by
  cases l <;> rfl

theorem runPending_eq (ts : List Task) (s : DriveState) :
    runPending ts s = { s with exited := s.exited || !ts.isEmpty } := by
  induction ts generalizing s with
  | nil => simp [runPending]
  | cons t ts ih => cases t; simp [runPending, runTask, ih]

theorem poll_eq_hook (k : Nat) (a : Int × Int) (s : DriveState)
    (h : s.polls + 1 = k) :
    poll k a s =
      { exited := true, pending := [], hookRuns := s.hookRuns + 1,
        polls := s.polls + 1 } := by
  simp [poll, runHook, h, runPending_eq, isEmpty_append_singleton]

theorem poll_eq_nohook (k : Nat) (a : Int × Int) (s : DriveState)
    (h : ¬ s.polls + 1 = k) :
    poll k a s =
      { exited := s.exited || !s.pending.isEmpty, pending := [],
        hookRuns := s.hookRuns, polls := s.polls + 1 } := by
  simp [poll, runHook, h, runPending_eq]

theorem poll_polls (k : Nat) (a : Int × Int) (s : DriveState) :
    (poll k a s).polls = s.polls + 1 := by
  by_cases h : s.polls + 1 = k
  · rw [poll_eq_hook k a s h]
  · rw [poll_eq_nohook k a s h]

theorem poll_exited_mono (k : Nat) (a : Int × Int) (s : DriveState)
    (h : s.exited = true) : (poll k a s).exited = true := by
  by_cases hk : s.polls + 1 = k
  · rw [poll_eq_hook k a s hk]
  · rw [poll_eq_nohook k a s hk]; simp [h]

theorem driveLoop_exited (k : Nat) (a : Int × Int) (fuel : Nat)
    (s : DriveState) (h : s.exited = true) :
    driveLoop k a fuel s = some s := by
  cases fuel <;> simp [driveLoop, h]

theorem driveLoop_clean (k : Nat) (a : Int × Int) :
    ∀ fuel j hr, j < k → k - j ≤ fuel →
    driveLoop k a fuel
        { exited := false, pending := [], hookRuns := hr, polls := j } =
      some { exited := true, pending := [], hookRuns := hr + 1, polls := k } := by
  intro fuel
  induction fuel with
  | zero => intro j hr hj hf; omega
  | succ n ih =>
      intro j hr hj hf
      rw [driveLoop, if_neg Bool.false_ne_true]
      by_cases hk : j + 1 = k
      · rw [poll_eq_hook k a _ hk, hk]
        exact driveLoop_exited k a n _ rfl
      · rw [poll_eq_nohook k a _ hk]
        exact ih (j + 1) hr (by omega) (by omega)


/-- Loop invariant of the drive-supplied wait: either the completion hook
has not yet run (flag clear, nothing posted, no hook executions) or the
hook has executed at least once. -/
def DriveInv (s : DriveState) : Prop :=
  (s.exited = false ∧ s.pending = [] ∧ s.hookRuns = 0) ∨ 1 ≤ s.hookRuns

theorem poll_inv (k : Nat) (a : Int × Int) (s : DriveState)
    (h : DriveInv s) : DriveInv (poll k a s) := by
  by_cases hk : s.polls + 1 = k
  · rw [poll_eq_hook k a s hk]
    right
    exact Nat.succ_le_succ (Nat.zero_le _)
  · rw [poll_eq_nohook k a s hk]
    rcases h with ⟨he, hp, hh⟩ | hh
    · left; simp [he, hp, hh]
    · right; exact hh

theorem driveLoop_some (k : Nat) (a : Int × Int) :
    ∀ fuel s s', driveLoop k a fuel s = some s' → DriveInv s →
    DriveInv s' ∧ s'.exited = true ∧ s.polls ≤ s'.polls ∧
      (s.exited = false → s.polls < s'.polls) := by
  intro fuel
  induction fuel with
  | zero =>
      intro s s' h hinv
      rw [driveLoop] at h
      by_cases he : s.exited = true
      · rw [if_pos he] at h
        cases h
        exact ⟨hinv, he, Nat.le_refl _, fun hf => by rw [hf] at he; cases he⟩
      · rw [if_neg he] at h; cases h
  | succ n ih =>
      intro s s' h hinv
      rw [driveLoop] at h
      by_cases he : s.exited = true
      · rw [if_pos he] at h
        cases h
        exact ⟨hinv, he, Nat.le_refl _, fun hf => by rw [hf] at he; cases he⟩
      · rw [if_neg he] at h
        obtain ⟨hinv', he', hle, _⟩ := ih (poll k a s) s' h (poll_inv k a s hinv)
        refine ⟨hinv', he', ?_, fun _ => ?_⟩
        · calc s.polls ≤ (poll k a s).polls := by rw [poll_polls]; omega
            _ ≤ s'.polls := hle
        · calc s.polls < (poll k a s).polls := by rw [poll_polls]; omega
            _ ≤ s'.polls := hle

theorem driveLoop_transition (k : Nat) (a : Int × Int) :
    ∀ fuel s s', driveLoop k a fuel s = some s' → s.exited = false →
    ∃ t, t.exited = false ∧ s' = poll k a t ∧ s'.exited = true := by
  intro fuel
  induction fuel with
  | zero =>
      intro s s' h he
      rw [driveLoop, if_neg (by simp [he])] at h
      cases h
  | succ n ih =>
      intro s s' h he
      rw [driveLoop, if_neg (by simp [he])] at h
      by_cases he' : (poll k a s).exited = true
      · rw [driveLoop_exited k a n _ he'] at h
        cases h
        exact ⟨s, he, rfl, he'⟩
      · exact ih (poll k a s) s' h (by simpa using he')

theorem driveLoop_args (k : Nat) (a a' : Int × Int) :
    ∀ fuel s, driveLoop k a fuel s = driveLoop k a' fuel s := by
  intro fuel
  induction fuel with
  | zero => intro s; rfl
  | succ n ih =>
      intro s
      rw [driveLoop, driveLoop]
      by_cases he : s.exited = true
      · rw [if_pos he, if_pos he]
      · rw [if_neg he, if_neg he]
        exact ih (poll k a s)

theorem system_impl_ft_strategy (c : ChildSpec) :
    (system_impl_ft c).strategy = StrategyName.blockingWithSupplied := by
  unfold system_impl_ft
  split <;> rfl

theorem system_impl_ff_strategy (c : ChildSpec) :
    (system_impl_ff c).strategy = StrategyName.blockingPlain := by
  unfold system_impl_ff
  split <;> rfl

theorem system_impl_tf_strategy (c : ChildSpec) (w : Nat) :
    (system_impl_tf c w).strategy = StrategyName.ownAndRun := by
  unfold system_impl_tf
  split <;> split <;> rfl

theorem system_impl_tt_strategy (c : ChildSpec) (k : Nat) (a : Int × Int)
    (fuel : Nat) (r : SysResult) (h : system_impl_tt c k a fuel = some r) :
    r.strategy = StrategyName.driveSupplied := by
  unfold system_impl_tt at h
  split at h
  · cases h; rfl
  · split at h
    · cases h
    · cases h; rfl

theorem system_impl_tt_some_valid (c : ChildSpec) (k : Nat) (a : Int × Int)
    (fuel : Nat) (r : SysResult) (hv : c.valid = true)
    (h : system_impl_tt c k a fuel = some r) : r.ret = c.exit_code := by
  unfold system_impl_tt at h
  rw [if_neg (by simp [hv])] at h
  rcases hd : driveLoop k a fuel initDrive with _ | s <;> rw [hd] at h
  · cases h
  · rw [Option.some_inj] at h
    subst h
    rfl

theorem system_isSome_invalid (opts : List POption) (c : ChildSpec) (e : Env)
    (hv : c.valid = false) : (system opts c e).isSome = true := by
  cases hn : needs_io_service opts <;> cases hh : has_io_service opts <;>
    simp [system, hn, hh, system_impl_ff, system_impl_ft, system_impl_tf,
      system_impl_tt, hv]

theorem system_some_invalid (opts : List POption) (c : ChildSpec) (e : Env)
    (r : SysResult) (h : system opts c e = some r) (hv : c.valid = false) :
    r.ret = -1 ∧ r.polls = 0 ∧ r.waits = 0 ∧ r.runs = 0 := by
  cases hn : needs_io_service opts <;> cases hh : has_io_service opts <;>
    simp only [system, hn, hh, Option.some.injEq] at h
  · subst h; simp [system_impl_ff, hv]
  · subst h; simp [system_impl_ft, hv]
  · subst h
    simp [system_impl_tf, OwnedScheduler.new, OwnedScheduler.run,
      OwnedScheduler.destroy, hv]
  · unfold system_impl_tt at h
    rw [if_pos hv] at h
    rw [Option.some_inj] at h
    subst h
    exact ⟨rfl, rfl, rfl, rfl⟩

theorem system_some_valid (opts : List POption) (c : ChildSpec) (e : Env)
    (r : SysResult) (h : system opts c e = some r) (hv : c.valid = true) :
    r.ret = c.exit_code := by
  cases hn : needs_io_service opts <;> cases hh : has_io_service opts <;>
    simp only [system, hn, hh, Option.some.injEq] at h
  · subst h; simp [system_impl_ff, hv]
  · subst h; simp [system_impl_ft, hv]
  · subst h
    simp [system_impl_tf, OwnedScheduler.new, OwnedScheduler.run,
      OwnedScheduler.destroy, hv]
  · exact system_impl_tt_some_valid c e.hookAt e.hookArgs e.fuel r hv h

/-! ## Claim theorems -/

/-- Claim C1: for every option set, `system` dispatches on the pair
(`needs_io_service`, `has_io_service`) to exactly one of the four waiting
strategies according to the §4.2 table (true/true → drive-supplied,
true/false → own-and-run, false/true → blocking-with-supplied,
false/false → blocking-plain); the selection is a total function of the
pair — hence deterministic, the same pair always selecting the same
strategy — and every result a call returns carries exactly the selected
strategy. -/
theorem C1_strategy_dispatch :
    (selectStrategy true true = StrategyName.driveSupplied ∧
     selectStrategy true false = StrategyName.ownAndRun ∧
     selectStrategy false true = StrategyName.blockingWithSupplied ∧
     selectStrategy false false = StrategyName.blockingPlain) ∧
    ∀ opts c e r, system opts c e = some r →
      r.strategy = selectStrategy (needs_io_service opts)
        (has_io_service opts) := by
  refine ⟨⟨rfl, rfl, rfl, rfl⟩, ?_⟩
  intro opts c e r h
  cases hn : needs_io_service opts <;> cases hh : has_io_service opts <;>
    simp only [system, hn, hh, Option.some.injEq] at h
  · exact h ▸ system_impl_ff_strategy c
  · exact h ▸ system_impl_ft_strategy c
  · exact h ▸ system_impl_tf_strategy c e.wired
  · exact system_impl_tt_strategy c e.hookAt e.hookArgs e.fuel r h

/-- Witness for C1 at a concrete call: the empty option set selects the
blocking-plain strategy. -/
theorem C1_strategy_dispatch_witness :
    (system_impl_ff { valid := true, exit_code := 0 }).strategy =
      selectStrategy (needs_io_service []) (has_io_service []) :=
  C1_strategy_dispatch.2 [] { valid := true, exit_code := 0 }
    { hookAt := 0, hookArgs := (0, 0), wired := 0, fuel := 0 }
    (system_impl_ff { valid := true, exit_code := 0 }) rfl

/-- Claim C2: in every one of the four strategies, if child creation fails
(`valid` is false) then `system` returns — immediately, with the sentinel
`-1` — and performs no blocking wait, no drain (poll) and no run call on
any scheduler or process; otherwise every result it returns carries the
child's observed exit code. -/
theorem C2_creation_failure :
    ∀ opts c e,
      (c.valid = false → (system opts c e).isSome = true) ∧
      ∀ r, system opts c e = some r →
        (c.valid = false →
          r.ret = -1 ∧ r.polls = 0 ∧ r.waits = 0 ∧ r.runs = 0) ∧
        (c.valid = true → r.ret = c.exit_code) :=
  fun opts c e =>
    ⟨fun hv => system_isSome_invalid opts c e hv,
     fun r h =>
       ⟨fun hv => system_some_invalid opts c e r h hv,
        fun hv => system_some_valid opts c e r h hv⟩⟩

/-- Witness for C2 at a concrete call with an invalid child: the sentinel
is returned with no wait, poll or run performed. -/
theorem C2_creation_failure_witness :
    (system [] { valid := false, exit_code := 0 }
        { hookAt := 0, hookArgs := (0, 0), wired := 0, fuel := 0 }).isSome
      = true ∧
    ((system_impl_ff { valid := false, exit_code := 0 }).ret = -1 ∧
     (system_impl_ff { valid := false, exit_code := 0 }).polls = 0 ∧
     (system_impl_ff { valid := false, exit_code := 0 }).waits = 0 ∧
     (system_impl_ff { valid := false, exit_code := 0 }).runs = 0) :=
  ⟨(C2_creation_failure [] { valid := false, exit_code := 0 }
      { hookAt := 0, hookArgs := (0, 0), wired := 0, fuel := 0 }).1 rfl,
   ((C2_creation_failure [] { valid := false, exit_code := 0 }
      { hookAt := 0, hookArgs := (0, 0), wired := 0, fuel := 0 }).2
      (system_impl_ff { valid := false, exit_code := 0 }) rfl).1 rfl⟩

/-- Claim C3: in the drive-supplied strategy, for a valid child whose exit
notification the supplied scheduler delivers at poll `k` (`1 ≤ k`, within
the observed fuel) the call registers the completion hook, polls the
supplied scheduler until the exit flag is set, and returns the child's
exit code; moreover whenever the loop returns, the exit flag is true only
after the completion hook has executed at least once and `poll` was called
at least once. -/
theorem C3_drive_supplied :
    ∀ c k a fuel, c.valid = true → 1 ≤ k → k ≤ fuel →
      (system_impl_tt c k a fuel =
        some { ret := c.exit_code, strategy := StrategyName.driveSupplied,
               polls := k, runs := 0, waits := 0, hookRuns := 1,
               sigDfl := false, ownedCreated := false,
               ownedDestroyed := false, ownedPendingAtEnd := 0 }) ∧
      (∀ f s', driveLoop k a f initDrive = some s' →
        s'.exited = true ∧ 1 ≤ s'.hookRuns ∧ 1 ≤ s'.polls) := by
  intro c k a fuel hv hk hf
  constructor
  · have hc : driveLoop k a fuel initDrive =
        some { exited := true, pending := [], hookRuns := 1, polls := k } :=
      driveLoop_clean k a fuel 0 0 (by omega) (by omega)
    unfold system_impl_tt
    rw [if_neg (by simp [hv]), hc]
  · intro f s' h
    obtain ⟨hinv', he', _, hlt⟩ :=
      driveLoop_some k a f initDrive s' h (Or.inl ⟨rfl, rfl, rfl⟩)
    refine ⟨he', ?_, hlt rfl⟩
    rcases hinv' with ⟨he0, _, _⟩ | hh
    · rw [he'] at he0; cases he0
    · exact hh

/-- Witness for C3 at a concrete call: child exit code 7, notification
delivered at the second poll. -/
theorem C3_drive_supplied_witness :
    system_impl_tt { valid := true, exit_code := 7 } 2 (7, 0) 2 =
      some { ret := 7, strategy := StrategyName.driveSupplied, polls := 2,
             runs := 0, waits := 0, hookRuns := 1, sigDfl := false,
             ownedCreated := false, ownedDestroyed := false,
             ownedPendingAtEnd := 0 } :=
  (C3_drive_supplied { valid := true, exit_code := 7 } 2 (7, 0) 2 rfl
    (by omega) (by omega)).1

/-- Claim C4: in the own-and-run strategy, `system` creates a new
scheduler instance, passes it to child creation, and — when the child is
valid — runs the owned scheduler to completion exactly once before
returning the exit code; the owned scheduler is destroyed on every exit
path, including the creation-failure early return, and has no pending work
after the call. -/
theorem C4_own_and_run :
    ∀ opts c e, needs_io_service opts = true → has_io_service opts = false →
      ∃ r, system opts c e = some r ∧
        r.strategy = StrategyName.ownAndRun ∧
        r.ownedCreated = true ∧ r.ownedDestroyed = true ∧
        r.ownedPendingAtEnd = 0 ∧
        (c.valid = true → r.runs = 1 ∧ r.ret = c.exit_code) ∧
        (c.valid = false → r.runs = 0 ∧ r.ret = -1) := by
  intro opts c e hn hh
  refine ⟨system_impl_tf c e.wired, by simp [system, hn, hh], ?_⟩
  cases hv : c.valid <;>
    simp [system_impl_tf, OwnedScheduler.new, OwnedScheduler.run,
      OwnedScheduler.destroy, hv]

/-- Witness for C4 at a concrete call: a completion handler with no
supplied scheduler, child exit code 5, three wired work items. -/
theorem C4_own_and_run_witness :
    ∃ r, system [POption.completionHandler] { valid := true, exit_code := 5 }
        { hookAt := 0, hookArgs := (0, 0), wired := 3, fuel := 0 } =
          some r ∧
      r.strategy = StrategyName.ownAndRun ∧
      r.ownedCreated = true ∧ r.ownedDestroyed = true ∧
      r.ownedPendingAtEnd = 0 ∧
      (({ valid := true, exit_code := 5 } : ChildSpec).valid = true →
        r.runs = 1 ∧ r.ret = ({ valid := true, exit_code := 5 } : ChildSpec).exit_code) ∧
      (({ valid := true, exit_code := 5 } : ChildSpec).valid = false →
        r.runs = 0 ∧ r.ret = -1) :=
  C4_own_and_run [POption.completionHandler] { valid := true, exit_code := 5 }
    { hookAt := 0, hookArgs := (0, 0), wired := 3, fuel := 0 } rfl rfl

/-- Claim C5: in the blocking-with-supplied strategy, `system` waits by
calling the child's blocking wait exactly once and never invokes the
supplied scheduler's drain (poll) or run-to-completion operations; the
child's exit code is returned. -/
theorem C5_blocking_with_supplied :
    ∀ opts c e, needs_io_service opts = false → has_io_service opts = true →
      ∃ r, system opts c e = some r ∧
        r.strategy = StrategyName.blockingWithSupplied ∧
        r.polls = 0 ∧ r.runs = 0 ∧
        (c.valid = true → r.waits = 1 ∧ r.ret = c.exit_code) := by
  intro opts c e hn hh
  refine ⟨system_impl_ft c, by simp [system, hn, hh], ?_⟩
  cases hv : c.valid <;> simp [system_impl_ft, hv]

/-- Witness for C5 at a concrete call (spec scenario 4): a supplied
scheduler with no asynchronous option, child exit code 3. -/
theorem C5_blocking_with_supplied_witness :
    ∃ r, system [POption.target "exit3" [], POption.schedulerRef]
        { valid := true, exit_code := 3 }
        { hookAt := 0, hookArgs := (0, 0), wired := 0, fuel := 0 } =
          some r ∧
      r.strategy = StrategyName.blockingWithSupplied ∧
      r.polls = 0 ∧ r.runs = 0 ∧
      (({ valid := true, exit_code := 3 } : ChildSpec).valid = true →
        r.waits = 1 ∧ r.ret = ({ valid := true, exit_code := 3 } : ChildSpec).exit_code) :=
  C5_blocking_with_supplied [POption.target "exit3" [], POption.schedulerRef]
    { valid := true, exit_code := 3 }
    { hookAt := 0, hookArgs := (0, 0), wired := 0, fuel := 0 } rfl rfl

/-- Claim C6: in the blocking-plain strategy, `system` creates the child
with default signal/termination disposition (`posix::sig.dfl()`), calls
the child's blocking wait exactly once, and returns its exit code when
creation succeeds. -/
theorem C6_blocking_plain :
    ∀ opts c e, needs_io_service opts = false → has_io_service opts = false →
      c.valid = true →
      ∃ r, system opts c e = some r ∧
        r.strategy = StrategyName.blockingPlain ∧
        r.sigDfl = true ∧ r.waits = 1 ∧ r.ret = c.exit_code := by
  intro opts c e hn hh hv
  refine ⟨system_impl_ff c, by simp [system, hn, hh], ?_⟩
  simp [system_impl_ff, hv]

/-- Witness for C6 at a concrete call (spec scenario 1): a plain target
with no scheduler-related option, child exit code 0. -/
theorem C6_blocking_plain_witness :
    ∃ r, system [POption.target "true" []] { valid := true, exit_code := 0 }
        { hookAt := 0, hookArgs := (0, 0), wired := 0, fuel := 0 } =
          some r ∧
      r.strategy = StrategyName.blockingPlain ∧
      r.sigDfl = true ∧ r.waits = 1 ∧
      r.ret = ({ valid := true, exit_code := 0 } : ChildSpec).exit_code :=
  C6_blocking_plain [POption.target "true" []] { valid := true, exit_code := 0 }
    { hookAt := 0, hookArgs := (0, 0), wired := 0, fuel := 0 } rfl rfl rfl

/-- Counterexample to C7 as stated: the facade does not constrain the
child's exit-code range, so a successfully created child whose observed
exit code is itself `-1` makes `system` return the sentinel value even
though creation succeeded — the caller cannot distinguish the two. -/
theorem C7_counterexample :
    ({ valid := true, exit_code := -1 } : ChildSpec).valid = true ∧
    system [POption.target "sh" []] { valid := true, exit_code := -1 }
        { hookAt := 0, hookArgs := (0, 0), wired := 0, fuel := 0 } =
      some (system_impl_ff { valid := true, exit_code := -1 }) ∧
    (system_impl_ff { valid := true, exit_code := -1 }).ret = -1 :=
  ⟨rfl, rfl, rfl⟩

/-- Claim C7 (amended): when child creation succeeds and the child's
observed exit code itself differs from `-1`, the status returned by
`system` differs from the sentinel `-1` returned on creation failure; the
code does not constrain the exit-code range, so a child exit code equal to
`-1` is returned as-is and is indistinguishable from the sentinel. -/
theorem C7_sentinel_amended :
    ∀ opts c e r, c.valid = true → ¬ c.exit_code = -1 →
      system opts c e = some r → ¬ r.ret = -1 := by
  intro opts c e r hv hne h
  rw [system_some_valid opts c e r h hv]
  exact hne

/-- Witness for C7 (amended) at a concrete call: a valid child with exit
code 0 yields a return value distinct from the sentinel. -/
theorem C7_sentinel_amended_witness :
    ¬ (system_impl_ff { valid := true, exit_code := 0 }).ret = -1 :=
  C7_sentinel_amended [] { valid := true, exit_code := 0 }
    { hookAt := 0, hookArgs := (0, 0), wired := 0, fuel := 0 }
    (system_impl_ff { valid := true, exit_code := 0 }) rfl (by decide) rfl

/-- Claim C8: the two classification predicates are pure total functions
of the option set and are order-independent — permuting the options yields
the same pair of boolean values and hence the same strategy selection. -/
theorem C8_order_independence :
    ∀ opts opts' : List POption, opts.Perm opts' →
      needs_io_service opts = needs_io_service opts' ∧
      has_io_service opts = has_io_service opts' ∧
      selectStrategy (needs_io_service opts) (has_io_service opts) =
        selectStrategy (needs_io_service opts') (has_io_service opts') := by
  intro opts opts' h
  have h1 := any_perm isAsyncOption h
  have h2 := any_perm isSchedulerRef h
  exact ⟨h1, h2, by simp only [needs_io_service, has_io_service, h1, h2]⟩

/-- Witness for C8 at a concrete permutation: swapping a completion
handler and a scheduler reference changes neither predicate nor the
selected strategy. -/
theorem C8_order_independence_witness :
    needs_io_service [POption.completionHandler, POption.schedulerRef] =
      needs_io_service [POption.schedulerRef, POption.completionHandler] ∧
    has_io_service [POption.completionHandler, POption.schedulerRef] =
      has_io_service [POption.schedulerRef, POption.completionHandler] ∧
    selectStrategy
        (needs_io_service [POption.completionHandler, POption.schedulerRef])
        (has_io_service [POption.completionHandler, POption.schedulerRef]) =
      selectStrategy
        (needs_io_service [POption.schedulerRef, POption.completionHandler])
        (has_io_service [POption.schedulerRef, POption.completionHandler]) :=
  C8_order_independence _ _
    (List.Perm.swap POption.schedulerRef POption.completionHandler [])

/-- Claim C9: in the drive-supplied strategy the completion hook never
sets the exit flag directly — it only posts the flag-setting store to the
supplied scheduler — so the flag transitions from false to true only while
a `poll` call is executing, and once true it never reverts: `poll`
preserves a set flag and the loop returns as soon as it observes it. -/
theorem C9_hook_posts :
    (∀ a s, (runHook a s).exited = s.exited) ∧
    (∀ k a s, s.exited = true → (poll k a s).exited = true) ∧
    (∀ k a fuel s s', driveLoop k a fuel s = some s' → s.exited = false →
      ∃ t, t.exited = false ∧ s' = poll k a t ∧ s'.exited = true) :=
  ⟨fun _ _ => rfl, poll_exited_mono, driveLoop_transition⟩

/-- Witness for C9 at a concrete run: from the initial state with the
notification delivered at the first poll, the final state arises from a
single `poll` call that flipped the flag. -/
theorem C9_hook_posts_witness :
    ∃ t, t.exited = false ∧
      ({ exited := true, pending := [], hookRuns := 1, polls := 1 } :
          DriveState) = poll 1 (0, 0) t ∧
      ({ exited := true, pending := [], hookRuns := 1, polls := 1 } :
          DriveState).exited = true :=
  C9_hook_posts.2.2 1 (0, 0) 1 initDrive
    { exited := true, pending := [], hookRuns := 1, polls := 1 } rfl rfl

/-- Claim C10: in the drive-supplied strategy the error code delivered to
the completion hook is discarded — the call's outcome is identical for any
delivered `(exit_code, error_code)` pair, and for every valid child a
returned result carries the child's `exit_code()`. -/
theorem C10_error_code_discarded :
    ∀ c k fuel a a',
      system_impl_tt c k a fuel = system_impl_tt c k a' fuel ∧
      (∀ r, c.valid = true → system_impl_tt c k a fuel = some r →
        r.ret = c.exit_code) := by
  intro c k fuel a a'
  constructor
  · unfold system_impl_tt
    rw [driveLoop_args k a a' fuel initDrive]
  · intro r hv h
    exact system_impl_tt_some_valid c k a fuel r hv h

/-- Witness for C10 at a concrete call: delivering `(9, 0)` or `(0, 7)` to
the hook yields the same outcome, and the returned status is the child's
exit code 9. -/
theorem C10_error_code_discarded_witness :
    system_impl_tt { valid := true, exit_code := 9 } 1 (9, 0) 1 =
      system_impl_tt { valid := true, exit_code := 9 } 1 (0, 7) 1 ∧
    ({ ret := 9, strategy := StrategyName.driveSupplied, polls := 1,
       runs := 0, waits := 0, hookRuns := 1, sigDfl := false,
       ownedCreated := false, ownedDestroyed := false,
       ownedPendingAtEnd := 0 } : SysResult).ret =
      ({ valid := true, exit_code := 9 } : ChildSpec).exit_code :=
  ⟨(C10_error_code_discarded { valid := true, exit_code := 9 } 1 1
      (9, 0) (0, 7)).1,
   (C10_error_code_discarded { valid := true, exit_code := 9 } 1 1
      (9, 0) (0, 7)).2
     { ret := 9, strategy := StrategyName.driveSupplied, polls := 1,
       runs := 0, waits := 0, hookRuns := 1, sigDfl := false,
       ownedCreated := false, ownedDestroyed := false,
       ownedPendingAtEnd := 0 } rfl rfl⟩

end BoostProcess
